import Mathlib

/-!
Verification of the CodeBridge request-admission and CRUD layer.

Shallow embedding of `backend/app/core/auth.py`, `backend/app/main.py`,
`backend/app/api/projects.py`, `backend/app/api/content.py` and
`backend/app/services/database_service.py`.  Wall-clock timestamps
(Python floats from `time.time()`) are modelled as integers; only
comparisons against the 60-second window matter to the algorithms.
-/

namespace CodeBridge

/-! ### Rate limiter (`RateLimiter` in `core/auth.py`) -/

/-- State of one `RateLimiter` instance: the configured ceiling and, per
client key, the recorded request timestamps (`defaultdict(list)`, so a
missing key reads as the empty list). -/
structure RateLimiter where
  requests_per_minute : Nat
  requests : String → List Int

/-- The list comprehension in `is_allowed`: keep the timestamps strictly
newer than `now - 60` (`req_time > minute_ago`). -/
def prune (l : List Int) (now : Int) : List Int :=
  l.filter (fun t => now - 60 < t)

/-- `RateLimiter.is_allowed`: prune the key's list, reject when the
pruned count is at or above the ceiling, otherwise append `now` and
admit.  Returns the decision together with the updated limiter state. -/
def RateLimiter.is_allowed (rl : RateLimiter) (key : String) (now : Int) :
    Bool × RateLimiter :=
  let pruned := prune (rl.requests key) now
  if rl.requests_per_minute ≤ pruned.length then
    (false, { rl with requests := fun k => if k = key then pruned else rl.requests k })
  else
    (true, { rl with requests := fun k => if k = key then pruned ++ [now] else rl.requests k })

/-- A fresh limiter (`RateLimiter.__init__`): no timestamps recorded. -/
def RateLimiter.init (n : Nat) : RateLimiter :=
  ⟨n, fun _ => []⟩

/-- Run a sequence of `is_allowed` calls, each given as (key, time),
threading the limiter state. -/
def RateLimiter.run (rl : RateLimiter) (calls : List (String × Int)) : RateLimiter :=
  calls.foldl (fun s c => (s.is_allowed c.1 c.2).2) rl

/-- Module-level instance `rate_limiter = RateLimiter(requests_per_minute=60)`. -/
def rate_limiter : RateLimiter := RateLimiter.init 60

/-- Module-level instance `strict_rate_limiter = RateLimiter(requests_per_minute=10)`. -/
def strict_rate_limiter : RateLimiter := RateLimiter.init 10

/-! ### Route-level rate limiting (`rate_limiting_middleware` in `main.py`) -/

/-- The paths the middleware exempts from rate limiting. -/
def skip_paths : List String := ["/", "/docs", "/redoc", "/openapi.json"]

/-- The ceiling the middleware enforces for a request path: none for the
exempt paths, and otherwise the ceiling of the module-level standard
`rate_limiter` — the middleware consults no other limiter instance. -/
def middleware_ceiling (path : String) : Option Nat :=
  if path ∈ skip_paths then none else some rate_limiter.requests_per_minute

/-- Representative request paths of the routers mounted on the app
(`health`, `projects`, `content`, `auth` in `main.py`). -/
def app_route_paths : List String :=
  ["/health", "/projects", "/content", "/auth/login", "/auth/me", "/projects/1", "/content/1"]

/-! ### Helper lemmas about `is_allowed` -/

theorem is_allowed_fst (rl : RateLimiter) (key : String) (now : Int) :
    (rl.is_allowed key now).1 =
      !decide (rl.requests_per_minute ≤ (prune (rl.requests key) now).length) := by
  by_cases h : rl.requests_per_minute ≤ (prune (rl.requests key) now).length <;>
    simp [RateLimiter.is_allowed, h]

theorem is_allowed_snd_requests (rl : RateLimiter) (key : String) (now : Int) (k : String) :
    (rl.is_allowed key now).2.requests k =
      if k = key then
        (if rl.requests_per_minute ≤ (prune (rl.requests key) now).length
         then prune (rl.requests key) now
         else prune (rl.requests key) now ++ [now])
      else rl.requests k := by
  by_cases h : rl.requests_per_minute ≤ (prune (rl.requests key) now).length <;>
    simp [RateLimiter.is_allowed, h]

theorem is_allowed_preserves_rpm (rl : RateLimiter) (key : String) (now : Int) :
    (rl.is_allowed key now).2.requests_per_minute = rl.requests_per_minute := by
  by_cases h : rl.requests_per_minute ≤ (prune (rl.requests key) now).length <;>
    simp [RateLimiter.is_allowed, h]

theorem prune_length_le (l : List Int) (now : Int) :
    (prune l now).length ≤ l.length :=
  List.length_filter_le _ l

/-! ### JWT verification (`verify_token` and friends in `core/auth.py`) -/

/-- The claims carried by a decoded JWT payload: the subject (`sub`, may
be absent) and the permission list (`permissions`, defaulting to `[]`
via `payload.get("permissions", [])`). -/
structure JWTPayload where
  sub : Option String
  permissions : List String
deriving DecidableEq

/-- A presented bearer token, abstracted to the facts the jose library
checks: structural well-formedness, signature validity against the
server secret, the embedded expiry instant, and the claims payload. -/
structure Token where
  wellFormed : Bool
  signatureValid : Bool
  exp : Int
  payload : JWTPayload
deriving DecidableEq

/-- Model of the jose call `jwt.decode(token, SECRET_KEY,
algorithms=[ALGORITHM])`: it raises `JWTError` when the token is
malformed, when the signature does not verify, or when the expiry
instant has passed; otherwise it returns the claims payload.  `none`
stands for the raised `JWTError`. -/
def jwtDecode (tok : Token) (now : Int) : Option JWTPayload :=
  if tok.wellFormed && tok.signatureValid && decide (now ≤ tok.exp) then
    some tok.payload
  else
    none

/-- An `HTTPException` as raised by the service layer: status code and
detail string. -/
structure HTTPError where
  status_code : Nat
  detail : String
deriving DecidableEq

/-- `AuthenticationError`: HTTP 401 with the fixed detail string. -/
def AuthenticationError : HTTPError :=
  ⟨401, "Could not validate credentials"⟩

/-- `AuthorizationError`: HTTP 403 with a caller-supplied detail. -/
def AuthorizationError (detail : String) : HTTPError :=
  ⟨403, detail⟩

/-- The identity extracted from a verified token (`TokenData` in
`models/schemas.py`). -/
structure TokenData where
  username : String
  permissions : List String
deriving DecidableEq

/-- `verify_token`: decode the token; a `JWTError` from decoding, and a
missing `sub` claim, both raise `AuthenticationError()`; otherwise
return the extracted `TokenData`. -/
def verify_token (tok : Token) (now : Int) : Except HTTPError TokenData :=
  match jwtDecode tok now with
  | none => Except.error AuthenticationError
  | some payload =>
    match payload.sub with
    | none => Except.error AuthenticationError
    | some username => Except.ok ⟨username, payload.permissions⟩

/-- An ASCII single-quote character, used inside detail strings. -/
def squote : String := String.singleton (Char.ofNat 39)

/-- The detail string of the error raised by `PermissionChecker`. -/
def permission_detail (p : String) : String :=
  "Permission " ++ squote ++ p ++ squote ++ " required"

/-- `PermissionChecker.__call__`: walk the required permissions and
raise `AuthorizationError` at the first one absent from the user's
permission list; if none is absent, return the user unchanged. -/
def PermissionChecker.call (required_permissions : List String) (current_user : TokenData) :
    Except HTTPError TokenData :=
  match required_permissions.find? (fun p => !decide (p ∈ current_user.permissions)) with
  | some p => Except.error (AuthorizationError (permission_detail p))
  | none => Except.ok current_user

/-- `get_current_user_optional`: `none` when no credential is presented;
otherwise run `verify_token`, converting its `AuthenticationError` into
`none` instead of propagating it. -/
def get_current_user_optional (credentials : Option Token) (now : Int) : Option TokenData :=
  match credentials with
  | none => none
  | some tok =>
    match verify_token tok now with
    | Except.ok td => some td
    | Except.error _ => none

/-! ### Database rows and CRUD operations (`models/database.py`,
`services/database_service.py`) -/

/-- A row of the `projects` table, restricted to the columns the claims
touch (`url` carries the unique constraint). -/
structure ProjectRec where
  id : Nat
  platform : String
  url : String
  name : String
deriving DecidableEq

/-- The payload of a create-project request (`ProjectCreate`). -/
structure ProjectCreate where
  platform : String
  url : String
  name : String
deriving DecidableEq

/-- A row of the `content` table, restricted to the columns the claims
touch (`project_id` is the foreign key into `projects`). -/
structure ContentRec where
  id : Nat
  project_id : Nat
  slug : String
  title : String
deriving DecidableEq

/-- The stored state: the `projects` and `content` tables as row lists. -/
structure DBState where
  projects : List ProjectRec
  contents : List ContentRec
deriving DecidableEq

/-- `get_project_by_url`: `query(Project).filter(Project.url == url).first()`,
the first stored row whose `url` matches. -/
def get_project_by_url (db : List ProjectRec) (url : String) : Option ProjectRec :=
  db.find? (fun r => decide (r.url = url))

/-- Autoincrement of the integer primary key: one more than the largest
id in the table. -/
def next_id (db : List ProjectRec) : Nat :=
  (db.map ProjectRec.id).foldr max 0 + 1

/-- `create_project` in `database_service.py`: build the row from the
request payload, add and commit it.  Returns the new row and the grown
table. -/
def create_project (db : List ProjectRec) (p : ProjectCreate) : ProjectRec × List ProjectRec :=
  let r : ProjectRec := ⟨next_id db, p.platform, p.url, p.name⟩
  (r, db ++ [r])

/-- The detail string of the HTTP 409 conflict response. -/
def conflict_detail (url : String) : String :=
  "Project with URL " ++ squote ++ url ++ squote ++ " already exists"

/-- The `create_new_project` endpoint: look the URL up first; raise HTTP
409 and leave the table alone when a row with that URL exists, otherwise
insert via `create_project`.  Returns the response and the resulting
table. -/
def create_new_project (db : List ProjectRec) (p : ProjectCreate) :
    Except HTTPError ProjectRec × List ProjectRec :=
  match get_project_by_url db p.url with
  | some _ => (Except.error ⟨409, conflict_detail p.url⟩, db)
  | none =>
    let c := create_project db p
    (Except.ok c.1, c.2)

/-- `delete_project` in `database_service.py`: find the project row by
id; return `False` (state untouched) when absent, otherwise delete the
content rows whose `project_id` references it, delete the project row,
and return `True`. -/
def delete_project (db : DBState) (project_id : Nat) : Bool × DBState :=
  match db.projects.find? (fun r => decide (r.id = project_id)) with
  | none => (false, db)
  | some _ =>
      (true,
       { projects := db.projects.filter (fun r => !decide (r.id = project_id)),
         contents := db.contents.filter (fun c => !decide (c.project_id = project_id)) })

/-! ### Listing endpoints (`list_projects` in `api/projects.py`,
`list_content` in `api/content.py`) -/

/-- `get_projects`: `query.offset(skip).limit(limit).all()` over the
already-filtered row list. -/
def get_projects (db : List ProjectRec) (skip limit : Nat) : List ProjectRec :=
  (db.drop skip).take limit

/-- The numeric fields of a `PaginatedResponse`: number of records in
`data`, `total`, `page`, `per_page`, `pages`. -/
structure PaginatedMeta where
  count : Nat
  total : Nat
  page : Nat
  per_page : Nat
  pages : Nat
deriving DecidableEq

/-- The pagination arithmetic of `list_projects`: records from
`get_projects(db, skip, limit)`, `total` counted through a capped
`get_projects(db, 0, 10000)`, `pages = (total + limit - 1) // limit`,
`page = skip // limit + 1`. -/
def list_projects (db : List ProjectRec) (skip limit : Nat) : PaginatedMeta :=
  let projects := get_projects db skip limit
  let total := (get_projects db 0 10000).length
  { count := projects.length
    total := total
    page := skip / limit + 1
    per_page := limit
    pages := (total + limit - 1) / limit }

end CodeBridge

namespace CodeBridge

/-! ### Claims about the rate limiter -/

/-- Claim C1: for any key whose pruned timestamp list has exactly
`requests_per_minute` entries inside the trailing 60-second window, the
call at `now` returns `False`; and once every timestamp recorded for the
key is older than the window of a later instant, the call at that
instant returns `True`. -/
theorem is_allowed_ceiling_rejects_and_window_recovers
    (rl : RateLimiter) (key : String) (now later : Int)
    (hceil : (prune (rl.requests key) now).length = rl.requests_per_minute)
    (hpos : 0 < rl.requests_per_minute)
    (hstale : ∀ t ∈ ((rl.is_allowed key now).2.requests key), t ≤ later - 60) :
    (rl.is_allowed key now).1 = false ∧
    (((rl.is_allowed key now).2).is_allowed key later).1 = true := by
  have h1 : (rl.is_allowed key now).1 = false := by
    rw [is_allowed_fst]
    simp [hceil]
  refine ⟨h1, ?_⟩
  have hempty : prune ((rl.is_allowed key now).2.requests key) later = [] := by
    rw [List.eq_nil_iff_forall_not_mem]
    intro t ht
    rcases List.mem_filter.mp ht with ⟨htmem, htlt⟩
    have h2 := hstale t htmem
    have h3 := of_decide_eq_true htlt
    omega
  rw [is_allowed_fst, is_allowed_preserves_rpm, hempty]
  simp
  omega

/-- Claim C1 witness: a limiter with ceiling 2 holding timestamps 50 and
60 for key "a" rejects at time 100 and admits again at time 200. -/
theorem is_allowed_ceiling_rejects_and_window_recovers_witness :
    (((RateLimiter.mk 2 (fun k => if k = "a" then [50, 60] else [])).is_allowed "a" 100).1 = false ∧
     ((((RateLimiter.mk 2 (fun k => if k = "a" then [50, 60] else [])).is_allowed "a" 100).2).is_allowed "a" 200).1 = true) :=
  is_allowed_ceiling_rejects_and_window_recovers
    (RateLimiter.mk 2 (fun k => if k = "a" then [50, 60] else [])) "a" 100 200
    (by decide) (by decide) (by decide)

/-- Claim C9: after a call to `is_allowed`, the key's stored list is its
pruned list plus `now` exactly when the call admitted (and the pruned
list alone when it rejected, so a rejected request records nothing), and
every other key's list is untouched. -/
theorem is_allowed_frame (rl : RateLimiter) (key : String) (now : Int) (k : String) :
    (rl.is_allowed key now).2.requests k =
      if k = key then
        prune (rl.requests key) now ++
          (if (rl.is_allowed key now).1 then [now] else [])
      else rl.requests k := by
  rw [is_allowed_snd_requests, is_allowed_fst]
  by_cases h : rl.requests_per_minute ≤ (prune (rl.requests key) now).length <;>
    by_cases hk : k = key <;> simp [h, hk]

/-- The per-key occupancy invariant: every key's stored list is no longer
than the ceiling. -/
def RateLimiter.bounded (rl : RateLimiter) : Prop :=
  ∀ k, (rl.requests k).length ≤ rl.requests_per_minute

theorem is_allowed_preserves_bounded (rl : RateLimiter) (key : String) (now : Int)
    (hb : rl.bounded) : (rl.is_allowed key now).2.bounded := by
  intro k
  rw [is_allowed_preserves_rpm, is_allowed_snd_requests]
  by_cases hk : k = key
  · subst hk
    by_cases hle : rl.requests_per_minute ≤ (prune (rl.requests k) now).length
    · simpa [hle] using le_trans (prune_length_le (rl.requests k) now) (hb k)
    · have hlt := Nat.lt_of_not_le hle
      simp only [if_pos rfl, if_neg hle, ite_true, List.length_append, List.length_cons,
        List.length_nil]
      simpa using hlt
  · simpa [hk] using hb k

theorem run_preserves_bounded (calls : List (String × Int)) (rl : RateLimiter)
    (hb : rl.bounded) : (rl.run calls).bounded := by
  induction calls generalizing rl with
  | nil => exact hb
  | cons c rest ih =>
      exact ih _ (is_allowed_preserves_bounded rl c.1 c.2 hb)

theorem run_preserves_rpm (calls : List (String × Int)) (rl : RateLimiter) :
    (rl.run calls).requests_per_minute = rl.requests_per_minute := by
  induction calls generalizing rl with
  | nil => rfl
  | cons c rest ih =>
      rw [RateLimiter.run, List.foldl_cons, ← RateLimiter.run, ih,
        is_allowed_preserves_rpm]

/-- Claim C10: starting from the fresh limiter, after any finite
sequence of `is_allowed` calls the number of timestamps stored for any
key never exceeds the configured ceiling. -/
theorem run_length_le_ceiling (n : Nat) (calls : List (String × Int)) (key : String) :
    (((RateLimiter.init n).run calls).requests key).length ≤ n := by
  have hb : ((RateLimiter.init n).run calls).bounded :=
    run_preserves_bounded calls (RateLimiter.init n) (fun _ => Nat.zero_le n)
  have h := hb key
  rwa [run_preserves_rpm] at h

/-! ### Claims about authentication and authorization -/

/-- Claim C2: every failure of `verify_token` — malformed token, invalid
signature, passed expiry, or missing subject claim — produces the one
uniform `AuthenticationError` (HTTP 401, "Could not validate
credentials"); in particular a token past its expiry always fails. -/
theorem verify_token_uniform_error (tok : Token) (now : Int) :
    (∀ e, verify_token tok now = Except.error e → e = AuthenticationError) ∧
    ((tok.wellFormed = false ∨ tok.signatureValid = false ∨ tok.exp < now ∨
        tok.payload.sub = none) →
      verify_token tok now = Except.error AuthenticationError) ∧
    AuthenticationError.status_code = 401 ∧
    AuthenticationError.detail = "Could not validate credentials" := by
  refine ⟨?_, ?_, rfl, rfl⟩
  · intro e he
    unfold verify_token at he
    split at he
    · injection he with h
      exact h.symm
    · split at he
      · injection he with h
        exact h.symm
      · cases he
  · intro hbad
    unfold verify_token
    cases hd : jwtDecode tok now with
    | none => rfl
    | some payload =>
        have hcond : (tok.wellFormed && tok.signatureValid && decide (now ≤ tok.exp)) = true := by
          by_contra hc
          unfold jwtDecode at hd
          rw [if_neg hc] at hd
          cases hd
        have hpay : tok.payload = payload := by
          unfold jwtDecode at hd
          rw [if_pos hcond] at hd
          injection hd
        simp only [Bool.and_eq_true, decide_eq_true_eq] at hcond
        rcases hbad with h | h | h | h
        · simp [h] at hcond
        · simp [h] at hcond
        · exact absurd hcond.2 (not_le.mpr h)
        · have hps : payload.sub = none := hpay ▸ h
          simp [hps]

/-- Claim C2 witness: a well-formed, correctly signed token whose expiry
instant 0 lies before the call time 100 fails verification with the 401
error. -/
theorem verify_token_uniform_error_witness :
    verify_token (Token.mk true true 0 (JWTPayload.mk (some "bob") ["read"])) 100 =
      Except.error AuthenticationError ∧
    AuthenticationError.status_code = 401 :=
  ⟨(verify_token_uniform_error (Token.mk true true 0 (JWTPayload.mk (some "bob") ["read"])) 100).2.1
      (Or.inr (Or.inr (Or.inl (by decide)))),
   (verify_token_uniform_error (Token.mk true true 0 (JWTPayload.mk (some "bob") ["read"])) 100).2.2.1⟩

/-- Claim C3: the permission check raises an HTTP 403 error exactly when
some required permission is absent from the user's permission set, and
otherwise returns the user unchanged. -/
theorem permission_checker_forbidden_iff (required : List String) (u : TokenData) :
    ((∃ p ∈ required, p ∉ u.permissions) →
      ∃ e, PermissionChecker.call required u = Except.error e ∧ e.status_code = 403) ∧
    ((∀ p ∈ required, p ∈ u.permissions) →
      PermissionChecker.call required u = Except.ok u) := by
  constructor
  · rintro ⟨p, hpmem, hpabs⟩
    cases hf : required.find? (fun q => !decide (q ∈ u.permissions)) with
    | none =>
        exfalso
        have hall := List.find?_eq_none.mp hf p hpmem
        have hmem : p ∈ u.permissions := by simpa using hall
        exact hpabs hmem
    | some q =>
        refine ⟨AuthorizationError (permission_detail q), ?_, rfl⟩
        unfold PermissionChecker.call
        rw [hf]
  · intro hall
    cases hf : required.find? (fun q => !decide (q ∈ u.permissions)) with
    | none =>
        unfold PermissionChecker.call
        rw [hf]
    | some q =>
        exfalso
        have hqmem := List.mem_of_find?_eq_some hf
        have hq := List.find?_some hf
        simp only [Bool.not_eq_true', decide_eq_false_iff_not] at hq
        exact hq (hall q hqmem)

/-- Claim C3 witness: a user with permissions {read, write} passes the
checks for "read" and "write" and fails the check for "delete" with a
403 error. -/
theorem permission_checker_forbidden_iff_witness :
    (∃ e, PermissionChecker.call ["delete"] (TokenData.mk "user" ["read", "write"]) =
        Except.error e ∧ e.status_code = 403) ∧
    PermissionChecker.call ["read"] (TokenData.mk "user" ["read", "write"]) =
      Except.ok (TokenData.mk "user" ["read", "write"]) ∧
    PermissionChecker.call ["write"] (TokenData.mk "user" ["read", "write"]) =
      Except.ok (TokenData.mk "user" ["read", "write"]) :=
  ⟨(permission_checker_forbidden_iff ["delete"] (TokenData.mk "user" ["read", "write"])).1
      ⟨"delete", by decide, by decide⟩,
   (permission_checker_forbidden_iff ["read"] (TokenData.mk "user" ["read", "write"])).2
      (by decide),
   (permission_checker_forbidden_iff ["write"] (TokenData.mk "user" ["read", "write"])).2
      (by decide)⟩

/-- Claim C8: the optional-auth helper returns `none` both when no
credential is presented and when the presented credential fails
verification, and returns the decoded identity exactly when
verification succeeds; being a total function into `Option`, it never
raises. -/
theorem optional_auth_never_errors (credentials : Option Token) (now : Int) :
    (credentials = none → get_current_user_optional credentials now = none) ∧
    (∀ tok e, credentials = some tok → verify_token tok now = Except.error e →
      get_current_user_optional credentials now = none) ∧
    (∀ tok td, credentials = some tok → verify_token tok now = Except.ok td →
      get_current_user_optional credentials now = some td) := by
  refine ⟨?_, ?_, ?_⟩
  · intro h
    subst h
    rfl
  · intro tok e hc hv
    subst hc
    simp [get_current_user_optional, hv]
  · intro tok td hc hv
    subst hc
    simp [get_current_user_optional, hv]

/-- Claim C8 witness: the helper yields `none` for an absent credential
and for an expired token, and the identity for a valid token. -/
theorem optional_auth_never_errors_witness :
    get_current_user_optional none 100 = none ∧
    get_current_user_optional (some (Token.mk true true 0 (JWTPayload.mk (some "bob") []))) 100 = none ∧
    get_current_user_optional (some (Token.mk true true 1000 (JWTPayload.mk (some "bob") ["read"]))) 100 =
      some (TokenData.mk "bob" ["read"]) :=
  ⟨(optional_auth_never_errors none 100).1 rfl,
   (optional_auth_never_errors (some (Token.mk true true 0 (JWTPayload.mk (some "bob") []))) 100).2.1
      (Token.mk true true 0 (JWTPayload.mk (some "bob") [])) AuthenticationError rfl rfl,
   (optional_auth_never_errors (some (Token.mk true true 1000 (JWTPayload.mk (some "bob") ["read"]))) 100).2.2
      (Token.mk true true 1000 (JWTPayload.mk (some "bob") ["read"])) (TokenData.mk "bob" ["read"]) rfl rfl⟩

/-! ### Claims about the CRUD layer -/

/-- Claim C5: creating a project whose URL is already stored yields an
HTTP 409 conflict and leaves the table unchanged, while creating with a
fresh URL succeeds and appends exactly that project. -/
theorem create_new_project_conflict_or_insert (db : List ProjectRec) (p : ProjectCreate) :
    ((∃ r ∈ db, r.url = p.url) →
      (∃ e, (create_new_project db p).1 = Except.error e ∧ e.status_code = 409) ∧
      (create_new_project db p).2 = db) ∧
    ((∀ r ∈ db, r.url ≠ p.url) →
      ∃ r, (create_new_project db p).1 = Except.ok r ∧
        (create_new_project db p).2 = db ++ [r] ∧ r.url = p.url) := by
  constructor
  · rintro ⟨r0, hmem, hurl⟩
    cases hf : get_project_by_url db p.url with
    | none =>
        exfalso
        unfold get_project_by_url at hf
        have := List.find?_eq_none.mp hf r0 hmem
        simp [hurl] at this
    | some q =>
        unfold create_new_project
        rw [hf]
        exact ⟨⟨⟨409, conflict_detail p.url⟩, rfl, rfl⟩, rfl⟩
  · intro hall
    cases hf : get_project_by_url db p.url with
    | some q =>
        exfalso
        unfold get_project_by_url at hf
        have hqmem := List.mem_of_find?_eq_some hf
        have hq := List.find?_some hf
        simp only [decide_eq_true_eq] at hq
        exact hall q hqmem hq
    | none =>
        unfold create_new_project
        rw [hf]
        exact ⟨(create_project db p).1, rfl, rfl, rfl⟩

/-- Claim C5 witness: inserting URL "u1" into a table that already holds
it conflicts with status 409 and changes nothing, while URL "u2"
succeeds and appends the new row. -/
theorem create_new_project_conflict_or_insert_witness :
    ((∃ e, (create_new_project [ProjectRec.mk 1 "github" "u1" "n1"]
        (ProjectCreate.mk "github" "u1" "n2")).1 = Except.error e ∧ e.status_code = 409) ∧
      (create_new_project [ProjectRec.mk 1 "github" "u1" "n1"]
        (ProjectCreate.mk "github" "u1" "n2")).2 = [ProjectRec.mk 1 "github" "u1" "n1"]) ∧
    (∃ r, (create_new_project [ProjectRec.mk 1 "github" "u1" "n1"]
        (ProjectCreate.mk "github" "u2" "n2")).1 = Except.ok r ∧
      (create_new_project [ProjectRec.mk 1 "github" "u1" "n1"]
        (ProjectCreate.mk "github" "u2" "n2")).2 = [ProjectRec.mk 1 "github" "u1" "n1"] ++ [r] ∧
      r.url = "u2") :=
  ⟨(create_new_project_conflict_or_insert [ProjectRec.mk 1 "github" "u1" "n1"]
      (ProjectCreate.mk "github" "u1" "n2")).1 ⟨ProjectRec.mk 1 "github" "u1" "n1", by decide, by decide⟩,
   (create_new_project_conflict_or_insert [ProjectRec.mk 1 "github" "u1" "n1"]
      (ProjectCreate.mk "github" "u2" "n2")).2 (by decide)⟩

/-- Claim C6: when `delete_project` succeeds (returns `True`), no
content row referencing the deleted project remains, the surviving
content table is exactly the old one with those rows filtered out, and
every content row referencing another project survives. -/
theorem delete_project_cascades (db : DBState) (pid : Nat)
    (h : (delete_project db pid).1 = true) :
    (∀ c ∈ (delete_project db pid).2.contents, c.project_id ≠ pid) ∧
    (delete_project db pid).2.contents =
      db.contents.filter (fun c => !decide (c.project_id = pid)) ∧
    (∀ c ∈ db.contents, c.project_id ≠ pid → c ∈ (delete_project db pid).2.contents) := by
  cases hf : db.projects.find? (fun r => decide (r.id = pid)) with
  | none =>
      exfalso
      unfold delete_project at h
      rw [hf] at h
      exact Bool.noConfusion h
  | some q =>
      have hst : (delete_project db pid).2.contents =
          db.contents.filter (fun c => !decide (c.project_id = pid)) := by
        unfold delete_project
        rw [hf]
      refine ⟨?_, hst, ?_⟩
      · intro c hc
        rw [hst] at hc
        have := (List.mem_filter.mp hc).2
        simpa using this
      · intro c hc hne
        rw [hst]
        exact List.mem_filter.mpr ⟨hc, by simpa using hne⟩

/-- Claim C6 witness: deleting project 1 from a state with content rows
referencing projects 1 and 2 removes exactly the rows referencing 1. -/
theorem delete_project_cascades_witness :
    (∀ c ∈ (delete_project
        (DBState.mk [ProjectRec.mk 1 "github" "u1" "n1"]
          [ContentRec.mk 1 1 "s1" "t1", ContentRec.mk 2 2 "s2" "t2"]) 1).2.contents,
      c.project_id ≠ 1) ∧
    (delete_project
        (DBState.mk [ProjectRec.mk 1 "github" "u1" "n1"]
          [ContentRec.mk 1 1 "s1" "t1", ContentRec.mk 2 2 "s2" "t2"]) 1).2.contents =
      [ContentRec.mk 1 1 "s1" "t1", ContentRec.mk 2 2 "s2" "t2"].filter
        (fun c => !decide (c.project_id = 1)) ∧
    (∀ c ∈ [ContentRec.mk 1 1 "s1" "t1", ContentRec.mk 2 2 "s2" "t2"], c.project_id ≠ 1 →
      c ∈ (delete_project
        (DBState.mk [ProjectRec.mk 1 "github" "u1" "n1"]
          [ContentRec.mk 1 1 "s1" "t1", ContentRec.mk 2 2 "s2" "t2"]) 1).2.contents) :=
  delete_project_cascades
    (DBState.mk [ProjectRec.mk 1 "github" "u1" "n1"]
      [ContentRec.mk 1 1 "s1" "t1", ContentRec.mk 2 2 "s2" "t2"]) 1 (by decide)

/-- Ceiling-division characterization of `(t + limit - 1) / limit`. -/
theorem ceil_div_spec (t limit : Nat) (hl : 1 ≤ limit) :
    t ≤ limit * ((t + limit - 1) / limit) ∧ limit * ((t + limit - 1) / limit) < t + limit := by
  have hdm := Nat.div_add_mod (t + limit - 1) limit
  have hmod : (t + limit - 1) % limit < limit := Nat.mod_lt _ (by omega)
  set d := (t + limit - 1) / limit with hd
  set r := (t + limit - 1) % limit with hr
  set x := limit * d with hx
  omega

/-- Claim C7: the listing response's `page` is `skip / limit + 1`, its
`pages` is the ceiling of `total / limit` (characterized as the least
multiple bound), `total` equals the stored record count whenever that
count is within the 10000 counting cap, and the number of returned
records is `min limit (count - skip)`. -/
theorem list_projects_pagination (db : List ProjectRec) (skip limit : Nat)
    (hl : 1 ≤ limit) :
    (list_projects db skip limit).page = skip / limit + 1 ∧
    (list_projects db skip limit).per_page = limit ∧
    (list_projects db skip limit).total ≤ limit * (list_projects db skip limit).pages ∧
    limit * (list_projects db skip limit).pages < (list_projects db skip limit).total + limit ∧
    (db.length ≤ 10000 → (list_projects db skip limit).total = db.length) ∧
    (list_projects db skip limit).count = min limit (db.length - skip) := by
  refine ⟨rfl, rfl, (ceil_div_spec (get_projects db 0 10000).length limit hl).1,
    (ceil_div_spec (get_projects db 0 10000).length limit hl).2, ?_, ?_⟩
  · intro hle
    show (get_projects db 0 10000).length = db.length
    unfold get_projects
    rw [List.drop_zero, List.length_take]
    exact Nat.min_eq_right hle
  · show ((db.drop skip).take limit).length = min limit (db.length - skip)
    rw [List.length_take, List.length_drop]

/-- A stored table of exactly 25 project rows. -/
def sample_projects_25 : List ProjectRec :=
  List.replicate 25 (ProjectRec.mk 1 "github" "u" "n")

/-- Claim C7 witness: with skip 0 and limit 10 over 25 stored records
the response has 10 records, total 25, page 1 and pages 3. -/
theorem list_projects_pagination_witness :
    ((list_projects sample_projects_25 0 10).page = 0 / 10 + 1 ∧
     (list_projects sample_projects_25 0 10).per_page = 10 ∧
     (list_projects sample_projects_25 0 10).total ≤ 10 * (list_projects sample_projects_25 0 10).pages ∧
     10 * (list_projects sample_projects_25 0 10).pages < (list_projects sample_projects_25 0 10).total + 10 ∧
     (sample_projects_25.length ≤ 10000 →
       (list_projects sample_projects_25 0 10).total = sample_projects_25.length) ∧
     (list_projects sample_projects_25 0 10).count = min 10 (sample_projects_25.length - 0)) ∧
    ((list_projects sample_projects_25 0 10).count = 10 ∧
     (list_projects sample_projects_25 0 10).total = 25 ∧
     (list_projects sample_projects_25 0 10).page = 1 ∧
     (list_projects sample_projects_25 0 10).pages = 3) :=
  ⟨list_projects_pagination sample_projects_25 0 10 (by decide), by decide⟩

/-! ### Claims about the middleware tier selection -/

/-- Claim C4 counterexample: two limiter instances with ceilings 60 and
10 do exist, but the middleware checks every mounted route against the
standard 60-ceiling limiter and no route against the strict one, so the
enforced ceiling is not selected by the route. -/
theorem middleware_no_strict_tier_counterexample :
    rate_limiter.requests_per_minute = 60 ∧
    strict_rate_limiter.requests_per_minute = 10 ∧
    (app_route_paths.all (fun p => decide (middleware_ceiling p = some 60))) = true ∧
    (app_route_paths.all (fun p => decide (middleware_ceiling p ≠ some 10))) = true := by
  refine ⟨rfl, rfl, ?_, ?_⟩ <;> decide

/-- Claim C4 (amended): a standard limiter with ceiling 60 and a strict
limiter with ceiling 10 are both instantiated, but the middleware
applies the standard ceiling to every non-exempt path; no path is ever
checked against the strict limiter's ceiling. -/
theorem middleware_standard_ceiling_only (path : String) (h : path ∉ skip_paths) :
    middleware_ceiling path = some rate_limiter.requests_per_minute ∧
    rate_limiter.requests_per_minute = 60 ∧
    strict_rate_limiter.requests_per_minute = 10 ∧
    middleware_ceiling path ≠ some strict_rate_limiter.requests_per_minute := by
  have hm : middleware_ceiling path = some 60 := by
    unfold middleware_ceiling
    rw [if_neg h]
    rfl
  refine ⟨hm, rfl, rfl, ?_⟩
  rw [hm]
  decide

/-- Claim C4 witness: the login route is checked against the standard
60-request ceiling, not the strict 10-request one. -/
theorem middleware_standard_ceiling_only_witness :
    middleware_ceiling "/auth/login" = some rate_limiter.requests_per_minute ∧
    rate_limiter.requests_per_minute = 60 ∧
    strict_rate_limiter.requests_per_minute = 10 ∧
    middleware_ceiling "/auth/login" ≠ some strict_rate_limiter.requests_per_minute :=
  middleware_standard_ceiling_only "/auth/login" (by decide)

end CodeBridge
